import Mathlib

/-!
Shallow embedding of the CourseManagement app (src/Task1/views.py).

The persistent store (Django ORM) is modelled as an explicit `State`:
lists of users, student profiles and courses, id counters, and the
session.  Each request handler of `views.py` becomes a pure function
`State → form → HandlerResult`, where `HandlerResult` carries the new
state, the HTTP response (redirect or render) and the flash messages
added during the request.  The ORM lookup `Course.objects.get(id=...)`
is abstracted as a string-keyed search over the course table that
either finds the course or behaves as `Course.DoesNotExist`.
-/

namespace CourseMgmt

/-- `User` model: id, unique username/email, password, and a string role
(`"Student"` or `"Faculty"`), as in `models.User`. -/
structure User where
  id : Nat
  username : String
  email : String
  password : String
  role : String
deriving Repr, DecidableEq

/-- `Course` model: name, code, credits (stored as submitted text) and the
id of the owning instructor user. -/
structure Course where
  id : Nat
  course_name : String
  course_code : String
  credits : String
  instructor : Nat
deriving Repr, DecidableEq

/-- `Student` profile: 1:1 with a user (by user id) plus the many-to-many
`courses` relation, kept as a duplicate-free list of course ids. -/
structure Student where
  user : Nat
  courses : List Nat
deriving Repr, DecidableEq

/-- The persistent store plus the request session (the authenticated
user's id, if any). -/
structure State where
  users : List User
  students : List Student
  courses : List Course
  nextUserId : Nat
  nextCourseId : Nat
  session : Option Nat
deriving Repr, DecidableEq

/-- Flash-message level (`messages.error` / `messages.success`). -/
inductive MsgLevel where
  | error
  | success
deriving Repr, DecidableEq

/-- One flash message added via the `messages` framework. -/
structure Message where
  level : MsgLevel
  text : String
deriving Repr, DecidableEq

/-- The response a handler produces: a redirect, a plain render with an
optional `error_message` context entry, or a dashboard render with its
context (course ids only, which is all the claims need). -/
inductive Response where
  | redirect (target : String)
  | render (template : String) (errorMessage : Option String)
  | studentDashboard (enrolled : List Nat) (available : List Nat) (canEnroll : Bool)
  | facultyDashboard (courses : List Nat)
deriving Repr, DecidableEq

/-- Result of running one handler: new store state, response, and the
flash messages added by this request, in order. -/
structure HandlerResult where
  state : State
  response : Response
  msgs : List Message
deriving Repr, DecidableEq

/-- Python `str.lower()`, modelled character-wise over the underlying
character list (the built-in `String.toLower` does not reduce in the
kernel). -/
def strLower (s : String) : String := ⟨s.data.map Char.toLower⟩

/-- Python `str.startswith(pre)`, modelled over the underlying
character lists. -/
def strStartsWith (s pre : String) : Bool := pre.data.isPrefixOf s.data

/-- Python truthiness of a form value: absent (`None`) and the empty
string are falsy, as used by `not all([...])` and `and course_id`. -/
def truthy : Option String → Bool
  | none => false
  | some s => s != ""

/-- `authenticate(username=..., password=...)`: find a user whose
credentials match (the hashing backend is out of scope, so the stored
password is compared directly). -/
def authenticate (s : State) (username password : String) : Option User :=
  s.users.find? (fun u => u.username == username && u.password == password)

/-- `User.objects.get(id=uid)` as an optional lookup. -/
def findUser (s : State) (uid : Nat) : Option User :=
  s.users.find? (fun u => u.id == uid)

/-- `user.save()`: persist the (possibly modified) user row. -/
def saveUser (s : State) (u : User) : State :=
  { s with users := s.users.map (fun x => if x.id == u.id then u else x) }

/-- The student profile of a user, if it exists (`user.student_profile`). -/
def findStudent (s : State) (uid : Nat) : Option Student :=
  s.students.find? (fun st => st.user == uid)

/-- `Student.objects.create(user=request.user)` when the profile is
missing (`if not hasattr(request.user, 'student_profile')`). -/
def ensureProfile (s : State) (uid : Nat) : State :=
  match findStudent s uid with
  | some _ => s
  | none => { s with students := s.students ++ [⟨uid, []⟩] }

/-- The enrolled course ids of a user (`student_profile.courses.all()`);
a missing profile has no enrollments. -/
def enrolledCourses (s : State) (uid : Nat) : List Nat :=
  ((findStudent s uid).map Student.courses).getD []

/-- Rewrite the course list of the given user's profile in place. -/
def modifyEnrollment (s : State) (uid : Nat) (f : List Nat → List Nat) : State :=
  { s with students :=
      s.students.map (fun st => if st.user == uid then { st with courses := f st.courses } else st) }

/-- Many-to-many `courses.add(course)`: a set add, no duplicates. -/
def addCourseId (cs : List Nat) (cid : Nat) : List Nat :=
  if cid ∈ cs then cs else cs ++ [cid]

/-- Many-to-many `courses.remove(course)`: removes the course if
present, no-op otherwise. -/
def removeCourseId (cs : List Nat) (cid : Nat) : List Nat :=
  cs.filter (fun x => x != cid)

/-- `Course.objects.get(id=course_id)` with the raw form value: the
submitted text must match a course's id, else `Course.DoesNotExist`. -/
def getCourse (s : State) (cid : Option String) : Option Course :=
  match cid with
  | none => none
  | some str => s.courses.find? (fun c => toString c.id == str)

/-- `Course.objects.get(id=course_id, instructor=request.user)`: the
ownership-scoped lookup used by the faculty update/delete branches. -/
def getCourseOwned (s : State) (cid : String) (uid : Nat) : Option Course :=
  s.courses.find? (fun c => toString c.id == cid && c.instructor == uid)

/-- The login form (`request.POST` fields consumed by `LoginView.post`). -/
structure LoginForm where
  username : Option String
  password : Option String
deriving Repr, DecidableEq

/-- The registration form consumed by `RegisterView.post`. -/
structure RegisterForm where
  username : Option String
  email : Option String
  password : Option String
  role : Option String
deriving Repr, DecidableEq

/-- The form consumed by `StudentDashboardView.post`. -/
structure StudentForm where
  action : Option String
  course_id : Option String
deriving Repr, DecidableEq

/-- The form consumed by `FacultyDashboardView.post`. -/
structure FacultyForm where
  action : Option String
  course_id : Option String
  name : Option String
  code : Option String
  credits : Option String
deriving Repr, DecidableEq

/-- `LoginView.post`: validate fields, authenticate, auto-correct the
role of users whose username starts with `"faculty"`, establish the
session, and redirect by role. -/
def loginPost (s : State) (f : LoginForm) : HandlerResult :=
  if !(truthy f.username && truthy f.password) then
    { state := s, response := .render "login" (some "Please fill in all fields"),
      msgs := [⟨.error, "Please fill in all fields"⟩] }
  else
    let username := f.username.getD ""
    let password := f.password.getD ""
    match authenticate s username password with
    | none =>
      { state := s, response := .render "login" (some "Invalid credentials"), msgs := [] }
    | some user0 =>
      let fix := strStartsWith username "faculty" && user0.role != "Faculty"
      let user := if fix then { user0 with role := "Faculty" } else user0
      let s1 := if fix then saveUser s user else s
      let s2 := { s1 with session := some user.id }
      if user.role == "Faculty" then
        { state := s2, response := .redirect "faculty-dashboard", msgs := [] }
      else
        { state := s2, response := .redirect "student-dashboard", msgs := [] }

/-- `'Student' if role.lower() == 'student' else 'Faculty'`. -/
def normalizeRole (role : String) : String :=
  if strLower role == "student" then "Student" else "Faculty"

/-- `RegisterView.post`: field presence, username/email uniqueness, then
user creation with the normalized role, a Student profile for students,
and a redirect to login. -/
def registerPost (s : State) (f : RegisterForm) : HandlerResult :=
  if !(truthy f.username && truthy f.email && truthy f.password && truthy f.role) then
    { state := s, response := .render "register" (some "Please fill in all required fields"),
      msgs := [] }
  else
    let username := f.username.getD ""
    let email := f.email.getD ""
    let password := f.password.getD ""
    let role := f.role.getD ""
    if s.users.any (fun u => u.username == username) then
      { state := s, response := .render "register" (some "Username already exists"), msgs := [] }
    else if s.users.any (fun u => u.email == email) then
      { state := s, response := .render "register" (some "Email already exists"), msgs := [] }
    else
      let user : User :=
        { id := s.nextUserId, username := username, email := email,
          password := password, role := normalizeRole role }
      let s1 : State := { s with users := s.users ++ [user], nextUserId := s.nextUserId + 1 }
      let s2 : State :=
        if strLower role == "student"
        then { s1 with students := s1.students ++ [⟨user.id, []⟩] }
        else s1
      { state := s2, response := .redirect "login",
        msgs := [⟨.success, "Registration successful! Please login with your credentials."⟩] }

/-- `StudentDashboardView.get`: role gate, lazy profile creation, and
the dashboard context (enrolled, available, can_enroll). -/
def studentDashboardGet (s : State) (requestUser : Option User) : HandlerResult :=
  match requestUser with
  | none => { state := s, response := .redirect "/login/", msgs := [] }
  | some u =>
    if u.role != "Student" then
      { state := s, response := .redirect "login",
        msgs := [⟨.error, "Access denied. Student account required."⟩] }
    else
      let s1 := ensureProfile s u.id
      let enrolled := enrolledCourses s1 u.id
      let available := (s1.courses.filter (fun c => !(enrolled.contains c.id))).map Course.id
      { state := s1,
        response := .studentDashboard enrolled available (decide (enrolled.length < 2)),
        msgs := [] }

/-- `StudentDashboardView.post`: role gate, lazy profile creation, then
the enroll/drop actions guarded by the course lookup. -/
def studentDashboardPost (s : State) (requestUser : Option User) (f : StudentForm) :
    HandlerResult :=
  match requestUser with
  | none => { state := s, response := .redirect "/login/", msgs := [] }
  | some u =>
    if u.role != "Student" then
      { state := s, response := .redirect "login",
        msgs := [⟨.error, "Access denied. Student account required."⟩] }
    else
      let s1 := ensureProfile s u.id
      match getCourse s1 f.course_id with
      | none =>
        { state := s1, response := .redirect "student-dashboard",
          msgs := [⟨.error, "Course not found"⟩] }
      | some course =>
        if f.action == some "enroll" then
          let enrolled_count := (enrolledCourses s1 u.id).length
          if enrolled_count ≥ 2 then
            { state := s1, response := .redirect "student-dashboard",
              msgs := [⟨.error, "You cannot enroll in more than 2 courses."⟩] }
          else
            { state := modifyEnrollment s1 u.id (fun cs => addCourseId cs course.id),
              response := .redirect "student-dashboard",
              msgs := [⟨.success, "Successfully enrolled in " ++ course.course_name⟩] }
        else if f.action == some "drop" then
          { state := modifyEnrollment s1 u.id (fun cs => removeCourseId cs course.id),
            response := .redirect "student-dashboard",
            msgs := [⟨.success, "Successfully dropped " ++ course.course_name⟩] }
        else
          { state := s1, response := .redirect "student-dashboard", msgs := [] }

/-- `FacultyDashboardView.get`: role gate and the list of the
requester's own courses. -/
def facultyDashboardGet (s : State) (requestUser : Option User) : HandlerResult :=
  match requestUser with
  | none => { state := s, response := .redirect "/login/", msgs := [] }
  | some u =>
    if u.role != "Faculty" then
      { state := s, response := .redirect "login",
        msgs := [⟨.error, "Access denied. Faculty account required."⟩] }
    else
      { state := s,
        response := .facultyDashboard ((s.courses.filter (fun c => c.instructor == u.id)).map Course.id),
        msgs := [] }

/-- The in-place field update of the `update` branch:
`request.POST.get(field, current)` keeps the stored value exactly when
the field is absent from the form. -/
def applyUpdate (c : Course) (f : FacultyForm) : Course :=
  { c with course_name := f.name.getD c.course_name,
           course_code := f.code.getD c.course_code,
           credits := f.credits.getD c.credits }

/-- `FacultyDashboardView.post`: role gate, then create / delete /
update branches; delete and update are additionally guarded by the
truthiness of `course_id` and the ownership-scoped lookup. -/
def facultyDashboardPost (s : State) (requestUser : Option User) (f : FacultyForm) :
    HandlerResult :=
  match requestUser with
  | none => { state := s, response := .redirect "/login/", msgs := [] }
  | some u =>
    if u.role != "Faculty" then
      { state := s, response := .redirect "login",
        msgs := [⟨.error, "Access denied. Faculty account required."⟩] }
    else if f.action == some "create" then
      let name := f.name.getD ""
      let course : Course :=
        { id := s.nextCourseId, course_name := name, course_code := f.code.getD "",
          credits := f.credits.getD "", instructor := u.id }
      { state := { s with courses := s.courses ++ [course], nextCourseId := s.nextCourseId + 1 },
        response := .redirect "faculty-dashboard",
        msgs := [⟨.success, "Successfully created course " ++ name⟩] }
    else if f.action == some "delete" && truthy f.course_id then
      match getCourseOwned s (f.course_id.getD "") u.id with
      | none =>
        { state := s, response := .redirect "faculty-dashboard",
          msgs := [⟨.error, "Course not found"⟩] }
      | some course =>
        { state := { s with courses := s.courses.filter (fun c => c.id != course.id) },
          response := .redirect "faculty-dashboard",
          msgs := [⟨.success, "Course deleted successfully"⟩] }
    else if f.action == some "update" && truthy f.course_id then
      match getCourseOwned s (f.course_id.getD "") u.id with
      | none =>
        { state := s, response := .redirect "faculty-dashboard",
          msgs := [⟨.error, "Course not found"⟩] }
      | some course =>
        let courses := s.courses.map (fun c => if c.id == course.id then applyUpdate course f else c)
        { state := { s with courses := courses },
          response := .redirect "faculty-dashboard",
          msgs := [⟨.success, "Course updated successfully"⟩] }
    else
      { state := s, response := .redirect "faculty-dashboard", msgs := [] }

/-! ### Helper lemmas about the store operations -/

theorem ensureProfile_courses (s : State) (uid : Nat) :
    (ensureProfile s uid).courses = s.courses := by
  unfold ensureProfile
  cases findStudent s uid <;> rfl

theorem ensureProfile_users (s : State) (uid : Nat) :
    (ensureProfile s uid).users = s.users := by
  unfold ensureProfile
  cases findStudent s uid <;> rfl

theorem modifyEnrollment_courses (s : State) (uid : Nat) (f : List Nat → List Nat) :
    (modifyEnrollment s uid f).courses = s.courses := rfl

theorem modifyEnrollment_users (s : State) (uid : Nat) (f : List Nat → List Nat) :
    (modifyEnrollment s uid f).users = s.users := rfl

theorem getCourse_ensureProfile (s : State) (uid : Nat) (cid : Option String) :
    getCourse (ensureProfile s uid) cid = getCourse s cid := by
  unfold getCourse
  rw [ensureProfile_courses]

theorem findStudent_ensureProfile_self (s : State) (uid : Nat) :
    (findStudent (ensureProfile s uid) uid).isSome := by
  unfold ensureProfile
  cases h : findStudent s uid with
  | some st => simp [h]
  | none =>
    unfold findStudent at h ⊢
    simp [List.find?_append, h, List.find?]

theorem enrolledCourses_ensureProfile (s : State) (uid uid' : Nat) :
    enrolledCourses (ensureProfile s uid) uid' = enrolledCourses s uid' := by
  unfold ensureProfile
  cases h : findStudent s uid with
  | some st => rfl
  | none =>
    unfold findStudent at h
    unfold enrolledCourses findStudent
    by_cases huid : uid = uid'
    · subst huid
      simp [List.find?_append, h, List.find?]
    · simp only [List.find?_append, List.find?]
      have hb : ((⟨uid, []⟩ : Student).user == uid') = false := by
        simpa using huid
      simp [hb]

theorem findStudent_modifyEnrollment (s : State) (uid : Nat) (f : List Nat → List Nat)
    (uid' : Nat) :
    findStudent (modifyEnrollment s uid f) uid'
      = (findStudent s uid').map
          (fun st => if st.user == uid then { st with courses := f st.courses } else st) := by
  unfold findStudent modifyEnrollment
  induction s.students with
  | nil => rfl
  | cons st rest ih =>
    simp only [List.map_cons, List.find?_cons]
    have huser : (if st.user == uid then { st with courses := f st.courses } else st).user
        = st.user := by
      split <;> rfl
    rw [huser]
    cases hp : (st.user == uid') with
    | true => simp
    | false => simpa using ih

theorem enrolledCourses_modifyEnrollment_ne (s : State) (uid : Nat) (f : List Nat → List Nat)
    (uid' : Nat) (h : uid' ≠ uid) :
    enrolledCourses (modifyEnrollment s uid f) uid' = enrolledCourses s uid' := by
  unfold enrolledCourses
  rw [findStudent_modifyEnrollment]
  cases hf : findStudent s uid' with
  | none => rfl
  | some st =>
    have hu : st.user = uid' := by
      have := List.find?_some hf
      simpa using this
    simp [hu, h]

theorem enrolledCourses_modifyEnrollment_self (s : State) (uid : Nat)
    (f : List Nat → List Nat) (st : Student) (h : findStudent s uid = some st) :
    enrolledCourses (modifyEnrollment s uid f) uid = f st.courses := by
  unfold enrolledCourses
  rw [findStudent_modifyEnrollment, h]
  have : st.user = uid := by
    have := List.find?_some h
    simpa using this
  simp [this]

theorem enrolledCourses_eq_of_findStudent (s : State) (uid : Nat) (st : Student)
    (h : findStudent s uid = some st) : enrolledCourses s uid = st.courses := by
  unfold enrolledCourses
  rw [h]
  rfl

theorem enrolledCourses_modify_ensure_self (s : State) (uid : Nat)
    (f : List Nat → List Nat) :
    enrolledCourses (modifyEnrollment (ensureProfile s uid) uid f) uid
      = f (enrolledCourses s uid) := by
  cases h : findStudent (ensureProfile s uid) uid with
  | none =>
    have := findStudent_ensureProfile_self s uid
    rw [h] at this
    simp at this
  | some st =>
    rw [enrolledCourses_modifyEnrollment_self _ _ _ _ h]
    have : enrolledCourses (ensureProfile s uid) uid = st.courses :=
      enrolledCourses_eq_of_findStudent _ _ _ h
    rw [← this, enrolledCourses_ensureProfile]

theorem enrolledCourses_modify_ensure_ne (s : State) (uid uid' : Nat)
    (f : List Nat → List Nat) (h : uid' ≠ uid) :
    enrolledCourses (modifyEnrollment (ensureProfile s uid) uid f) uid'
      = enrolledCourses s uid' := by
  rw [enrolledCourses_modifyEnrollment_ne _ _ _ _ h, enrolledCourses_ensureProfile]

theorem addCourseId_length_le (cs : List Nat) (cid : Nat) :
    (addCourseId cs cid).length ≤ cs.length + 1 := by
  unfold addCourseId
  split
  · exact Nat.le_succ _
  · simp

theorem removeCourseId_length_le (cs : List Nat) (cid : Nat) :
    (removeCourseId cs cid).length ≤ cs.length :=
  List.length_filter_le _ _

theorem removeCourseId_of_not_mem (cs : List Nat) (cid : Nat) (h : cid ∉ cs) :
    removeCourseId cs cid = cs := by
  unfold removeCourseId
  apply List.filter_eq_self.mpr
  intro a ha
  simp only [bne_iff_ne, ne_eq]
  intro hac
  exact h (hac ▸ ha)

theorem find?_id_map_update (l : List User) (u : User)
    (h : (l.find? (fun x => x.id == u.id)).isSome) :
    (l.map (fun x => if x.id == u.id then u else x)).find? (fun x => x.id == u.id)
      = some u := by
  induction l with
  | nil => simp at h
  | cons x rest ih =>
    by_cases hx : x.id = u.id
    · simp [List.find?_cons, hx]
    · have hb : (x.id == u.id) = false := by simp [hx]
      simp only [List.find?_cons, hb] at h
      simp only [List.map_cons, List.find?_cons, hb]
      simp only [Bool.false_eq_true, if_false, hb]
      exact ih h

theorem findUser_saveUser (s : State) (u : User)
    (h : (findUser s u.id).isSome) : findUser (saveUser s u) u.id = some u := by
  unfold findUser at h
  unfold findUser saveUser
  exact find?_id_map_update s.users u h

/-! ### Concrete fixtures used to instantiate the theorems -/

/-- A user registered as Student whose username carries the faculty
marker prefix. -/
def janeU : User := ⟨1, "faculty_jane", "jane@example.com", "pw", "Student"⟩

/-- An ordinary student, enrolled in two courses in `baseState`. -/
def bobU : User := ⟨2, "bob", "bob@example.com", "pw2", "Student"⟩

/-- The faculty user owning all three courses of `baseState`. -/
def profU : User := ⟨3, "prof", "prof@example.com", "pw3", "Faculty"⟩

/-- A second faculty user owning no course. -/
def deanU : User := ⟨4, "faculty_dean", "dean@example.com", "pw4", "Faculty"⟩

/-- A sample course owned by `profU`. -/
def mathC : Course := ⟨1, "Math", "MATH1", "3", 3⟩

/-- A sample course owned by `profU`. -/
def physC : Course := ⟨2, "Physics", "PHYS1", "4", 3⟩

/-- A sample course owned by `profU`. -/
def chemC : Course := ⟨3, "Chemistry", "CHEM1", "4", 3⟩

/-- A sample store: four users, student `bobU` enrolled in courses 1
and 2, three courses owned by `profU`, nobody logged in. -/
def baseState : State :=
  ⟨[janeU, bobU, profU, deanU], [⟨2, [1, 2]⟩], [mathC, physC, chemC], 5, 4, none⟩

/-! ### Claim theorems -/

/-- C5: a registration with a missing (falsy) required field, a
duplicate username, or a duplicate email renders the corresponding
error (`MissingFields` / `DuplicateUsername` / `DuplicateEmail`) and
leaves the store completely unchanged. -/
theorem registerPost_error_cases :
    (∀ (s : State) (f : RegisterForm),
        (truthy f.username && truthy f.email && truthy f.password && truthy f.role) = false →
        registerPost s f
          = ⟨s, .render "register" (some "Please fill in all required fields"), []⟩)
  ∧ (∀ (s : State) (f : RegisterForm),
        (truthy f.username && truthy f.email && truthy f.password && truthy f.role) = true →
        s.users.any (fun u => u.username == f.username.getD "") = true →
        registerPost s f = ⟨s, .render "register" (some "Username already exists"), []⟩)
  ∧ (∀ (s : State) (f : RegisterForm),
        (truthy f.username && truthy f.email && truthy f.password && truthy f.role) = true →
        s.users.any (fun u => u.username == f.username.getD "") = false →
        s.users.any (fun u => u.email == f.email.getD "") = true →
        registerPost s f = ⟨s, .render "register" (some "Email already exists"), []⟩) := by
  refine ⟨?_, ?_, ?_⟩ <;> intro s f <;> intros <;> simp [registerPost, *]

/-- C5 witness: registering with the already-taken username `bob`
fails with the duplicate-username error and changes nothing. -/
theorem registerPost_error_cases_witness :
    registerPost baseState ⟨some "bob", some "zz@example.com", some "x", some "student"⟩
      = ⟨baseState, .render "register" (some "Username already exists"), []⟩ :=
  registerPost_error_cases.2.1 baseState
    ⟨some "bob", some "zz@example.com", some "x", some "student"⟩ (by decide) (by decide)

/-- C3: a registration with all four fields supplied and a fresh
username and email appends exactly one user, whose role is `Student`
exactly when the submitted role lowercases to `student` and `Faculty`
otherwise, appends exactly one empty student profile in the `Student`
case, redirects to login, and does not touch the session. -/
theorem registerPost_success (s : State) (f : RegisterForm)
    (username email password role : String)
    (hu : f.username = some username) (he : f.email = some email)
    (hp : f.password = some password) (hr : f.role = some role)
    (hut : username ≠ "") (het : email ≠ "") (hpt : password ≠ "") (hrt : role ≠ "")
    (hdu : s.users.any (fun u => u.username == username) = false)
    (hde : s.users.any (fun u => u.email == email) = false) :
    registerPost s f =
      { state :=
          { s with
            users := s.users ++ [⟨s.nextUserId, username, email, password,
                        if strLower role == "student" then "Student" else "Faculty"⟩],
            students := if strLower role == "student"
                        then s.students ++ [⟨s.nextUserId, []⟩] else s.students,
            nextUserId := s.nextUserId + 1 },
        response := .redirect "login",
        msgs := [⟨.success, "Registration successful! Please login with your credentials."⟩] } := by
  by_cases hst : (strLower role == "student") = true <;>
    simp [registerPost, truthy, normalizeRole, hu, he, hp, hr, hut, het, hpt, hrt,
      hdu, hde, hst]

/-- C3 witness: registering `alice` with role `STUdent` appends the
user with role `Student` plus one empty profile and redirects to
login. -/
theorem registerPost_success_witness :
    registerPost baseState ⟨some "alice", some "alice@example.com", some "pw5", some "STUdent"⟩
      = { state :=
            { baseState with
              users := baseState.users ++ [⟨5, "alice", "alice@example.com", "pw5", "Student"⟩],
              students := baseState.students ++ [⟨5, []⟩],
              nextUserId := 6 },
          response := .redirect "login",
          msgs := [⟨.success, "Registration successful! Please login with your credentials."⟩] } := by
  rw [registerPost_success baseState _ "alice" "alice@example.com" "pw5" "STUdent"
    rfl rfl rfl rfl (by decide) (by decide) (by decide) (by decide) (by decide) (by decide)]
  decide

/-- C4: a successful login whose submitted username starts with
`faculty` while the stored role is not `Faculty` persists the role
`Faculty` to the user store, establishes the session for that user,
and redirects to the faculty dashboard. -/
theorem loginPost_faculty_autofix (s : State) (f : LoginForm)
    (username password : String) (u : User)
    (hu : f.username = some username) (hp : f.password = some password)
    (hut : username ≠ "") (hpt : password ≠ "")
    (hauth : authenticate s username password = some u)
    (hpre : strStartsWith username "faculty" = true)
    (hrole : u.role ≠ "Faculty") :
    loginPost s f
      = { state := { saveUser s { u with role := "Faculty" } with session := some u.id },
          response := .redirect "faculty-dashboard", msgs := [] }
    ∧ findUser (loginPost s f).state u.id = some { u with role := "Faculty" } := by
  have hfix : (strStartsWith username "faculty" && (u.role != "Faculty")) = true := by
    simp [hpre, hrole]
  have heq : loginPost s f
      = { state := { saveUser s { u with role := "Faculty" } with session := some u.id },
          response := .redirect "faculty-dashboard", msgs := [] } := by
    simp [loginPost, truthy, hu, hp, hut, hpt, hauth, hfix]
  refine ⟨heq, ?_⟩
  rw [heq]
  have hmem : u ∈ s.users := List.mem_of_find?_eq_some hauth
  have hsome : (findUser s ({ u with role := "Faculty" } : User).id).isSome := by
    apply List.find?_isSome.mpr
    exact ⟨u, hmem, by simp⟩
  simpa using findUser_saveUser s { u with role := "Faculty" } hsome

/-- C4 witness: logging in as `faculty_jane` (stored role `Student`)
ends with the stored role `Faculty`, a session for that user, and a
redirect to the faculty dashboard. -/
theorem loginPost_faculty_autofix_witness :
    findUser (loginPost baseState ⟨some "faculty_jane", some "pw"⟩).state janeU.id
        = some { janeU with role := "Faculty" }
    ∧ (loginPost baseState ⟨some "faculty_jane", some "pw"⟩).response
        = .redirect "faculty-dashboard" := by
  have h := loginPost_faculty_autofix baseState ⟨some "faculty_jane", some "pw"⟩
    "faculty_jane" "pw" janeU rfl rfl (by decide) (by decide) (by decide) (by decide)
    (by decide)
  exact ⟨h.2, by rw [h.1]⟩

/-- C1: a student POST of `enroll` with a resolvable course while
already holding two or more enrollments fails with the
`EnrollmentLimitExceeded` message and changes nobody's enrollments;
and no enroll/drop request can push any enrollment list past two
entries. -/
theorem enroll_limit_and_invariant :
    (∀ (s : State) (u : User) (f : StudentForm) (course : Course),
        u.role = "Student" →
        f.action = some "enroll" →
        getCourse s f.course_id = some course →
        2 ≤ (enrolledCourses s u.id).length →
        (studentDashboardPost s (some u) f).msgs
            = [⟨.error, "You cannot enroll in more than 2 courses."⟩]
          ∧ ∀ uid, enrolledCourses (studentDashboardPost s (some u) f).state uid
              = enrolledCourses s uid)
  ∧ (∀ (s : State) (ru : Option User) (f : StudentForm) (uid : Nat),
        (enrolledCourses s uid).length ≤ 2 →
        (enrolledCourses (studentDashboardPost s ru f).state uid).length ≤ 2) := by
  constructor
  · intro s u f course hrole haction hget hcount
    have hrb : (u.role != "Student") = false := by simp [hrole]
    have hget' : getCourse (ensureProfile s u.id) f.course_id = some course := by
      rw [getCourse_ensureProfile]
      exact hget
    have hcnt : 2 ≤ (enrolledCourses (ensureProfile s u.id) u.id).length := by
      rw [enrolledCourses_ensureProfile]
      exact hcount
    have hstate : (studentDashboardPost s (some u) f).state = ensureProfile s u.id := by
      simp [studentDashboardPost, hrb, hget', haction, hcnt]
    refine ⟨?_, ?_⟩
    · simp [studentDashboardPost, hrb, hget', haction, hcnt]
    · intro uid
      rw [hstate, enrolledCourses_ensureProfile]
  · intro s ru f uid h
    cases ru with
    | none => simpa using h
    | some u =>
      simp only [studentDashboardPost]
      split
      · simpa using h
      · split
        · simpa [enrolledCourses_ensureProfile] using h
        · next course hcourse =>
          split
          · split
            · simpa [enrolledCourses_ensureProfile] using h
            · next hlt =>
              by_cases huid : uid = u.id
              · subst huid
                simp only [enrolledCourses_modify_ensure_self]
                have h1 : (enrolledCourses s u.id).length ≤ 1 := by
                  rw [enrolledCourses_ensureProfile] at hlt
                  omega
                have h2 := addCourseId_length_le (enrolledCourses s u.id) course.id
                omega
              · simp only [enrolledCourses_modify_ensure_ne _ _ _ _ huid]
                exact h
          · split
            · by_cases huid : uid = u.id
              · subst huid
                simp only [enrolledCourses_modify_ensure_self]
                have h2 := removeCourseId_length_le (enrolledCourses s u.id) course.id
                omega
              · simp only [enrolledCourses_modify_ensure_ne _ _ _ _ huid]
                exact h
            · simpa [enrolledCourses_ensureProfile] using h

/-- C1 witness: `bobU` already holds two courses, so enrolling in the
resolvable course 3 produces only the limit error message. -/
theorem enroll_limit_and_invariant_witness :
    (studentDashboardPost baseState (some bobU) ⟨some "enroll", some "3"⟩).msgs
      = [⟨.error, "You cannot enroll in more than 2 courses."⟩] :=
  (enroll_limit_and_invariant.1 baseState bobU ⟨some "enroll", some "3"⟩ chemC
    rfl rfl (by decide) (by decide)).1

/-- C6: an authenticated GET of the student dashboard with a
non-Student role fails with the access-denied message and redirects to
login; with role Student it lazily creates the missing profile and
renders a context in which `enrolled` is the user's enrollment list,
`available` holds exactly the ids of stored courses not enrolled, and
`can_enroll` is true exactly when fewer than two courses are
enrolled. -/
theorem studentDashboardGet_spec :
    (∀ (s : State) (u : User), u.role ≠ "Student" →
        studentDashboardGet s (some u)
          = ⟨s, .redirect "login", [⟨.error, "Access denied. Student account required."⟩]⟩)
  ∧ (∀ (s : State) (u : User), u.role = "Student" →
        ∃ available : List Nat,
          studentDashboardGet s (some u)
            = ⟨ensureProfile s u.id,
               .studentDashboard (enrolledCourses s u.id) available
                 (decide ((enrolledCourses s u.id).length < 2)), []⟩
          ∧ (findStudent (studentDashboardGet s (some u)).state u.id).isSome = true
          ∧ ∀ cid, cid ∈ available
              ↔ ((∃ c ∈ s.courses, c.id = cid) ∧ cid ∉ enrolledCourses s u.id)) := by
  constructor
  · intro s u hrole
    have hrb : (u.role != "Student") = true := by simpa using hrole
    simp [studentDashboardGet, hrb]
  · intro s u hrole
    have hrb : (u.role != "Student") = false := by simp [hrole]
    refine ⟨((ensureProfile s u.id).courses.filter
        (fun c => !((enrolledCourses (ensureProfile s u.id) u.id).contains c.id))).map
          Course.id, ?_, ?_, ?_⟩
    · simp [studentDashboardGet, hrb, enrolledCourses_ensureProfile]
    · have hstate : (studentDashboardGet s (some u)).state = ensureProfile s u.id := by
        simp [studentDashboardGet, hrb]
      rw [hstate]
      exact findStudent_ensureProfile_self s u.id
    · intro cid
      simp only [List.mem_map, List.mem_filter, ensureProfile_courses,
        enrolledCourses_ensureProfile]
      constructor
      · rintro ⟨c, ⟨hc, hnc⟩, rfl⟩
        refine ⟨⟨c, hc, rfl⟩, ?_⟩
        simpa using hnc
      · rintro ⟨⟨c, hc, rfl⟩, hn⟩
        refine ⟨c, ⟨hc, ?_⟩, rfl⟩
        simpa using hn

/-- C6 witness: `profU` (role Faculty) is denied the student
dashboard, and for `bobU` the GET leaves the store at
`ensureProfile`. -/
theorem studentDashboardGet_spec_witness :
    studentDashboardGet baseState (some profU)
      = ⟨baseState, .redirect "login", [⟨.error, "Access denied. Student account required."⟩]⟩
    ∧ (studentDashboardGet baseState (some bobU)).state = ensureProfile baseState bobU.id := by
  constructor
  · exact studentDashboardGet_spec.1 baseState profU (by decide)
  · obtain ⟨avail, heq, -, -⟩ := studentDashboardGet_spec.2 baseState bobU rfl
    rw [heq]

/-- C7: a student POST of `drop` on a resolvable course removes that
course from the requester's enrollments (a no-op when it was not
enrolled) and still reports success, while an unresolvable course_id
fails with the course-not-found message and changes no enrollment. -/
theorem studentDashboardPost_drop_spec :
    (∀ (s : State) (u : User) (f : StudentForm) (course : Course),
        u.role = "Student" → f.action = some "drop" →
        getCourse s f.course_id = some course →
        (studentDashboardPost s (some u) f).response = .redirect "student-dashboard"
        ∧ (studentDashboardPost s (some u) f).msgs
            = [⟨.success, "Successfully dropped " ++ course.course_name⟩]
        ∧ (∀ uid, enrolledCourses (studentDashboardPost s (some u) f).state uid
            = if uid = u.id then removeCourseId (enrolledCourses s uid) course.id
              else enrolledCourses s uid)
        ∧ (course.id ∉ enrolledCourses s u.id →
            ∀ uid, enrolledCourses (studentDashboardPost s (some u) f).state uid
              = enrolledCourses s uid))
  ∧ (∀ (s : State) (u : User) (f : StudentForm),
        u.role = "Student" → getCourse s f.course_id = none →
        (studentDashboardPost s (some u) f).msgs = [⟨.error, "Course not found"⟩]
        ∧ (∀ uid, enrolledCourses (studentDashboardPost s (some u) f).state uid
            = enrolledCourses s uid)
        ∧ (studentDashboardPost s (some u) f).response = .redirect "student-dashboard") := by
  constructor
  · intro s u f course hrole haction hget
    have hrb : (u.role != "Student") = false := by simp [hrole]
    have hget' : getCourse (ensureProfile s u.id) f.course_id = some course := by
      rw [getCourse_ensureProfile]
      exact hget
    have hstate : (studentDashboardPost s (some u) f).state
        = modifyEnrollment (ensureProfile s u.id) u.id
            (fun cs => removeCourseId cs course.id) := by
      simp [studentDashboardPost, hrb, hget', haction]
    have hmain : ∀ uid, enrolledCourses (studentDashboardPost s (some u) f).state uid
        = if uid = u.id then removeCourseId (enrolledCourses s uid) course.id
          else enrolledCourses s uid := by
      intro uid
      rw [hstate]
      by_cases huid : uid = u.id
      · subst huid
        rw [enrolledCourses_modify_ensure_self, if_pos rfl]
      · rw [enrolledCourses_modify_ensure_ne _ _ _ _ huid, if_neg huid]
    refine ⟨?_, ?_, hmain, ?_⟩
    · simp [studentDashboardPost, hrb, hget', haction]
    · simp [studentDashboardPost, hrb, hget', haction]
    · intro hnm uid
      rw [hmain uid]
      by_cases huid : uid = u.id
      · subst huid
        rw [if_pos rfl, removeCourseId_of_not_mem _ _ hnm]
      · rw [if_neg huid]
  · intro s u f hrole hget
    have hrb : (u.role != "Student") = false := by simp [hrole]
    have hget' : getCourse (ensureProfile s u.id) f.course_id = none := by
      rw [getCourse_ensureProfile]
      exact hget
    have hstate : (studentDashboardPost s (some u) f).state = ensureProfile s u.id := by
      simp [studentDashboardPost, hrb, hget']
    refine ⟨?_, ?_, ?_⟩
    · simp [studentDashboardPost, hrb, hget']
    · intro uid
      rw [hstate, enrolledCourses_ensureProfile]
    · simp [studentDashboardPost, hrb, hget']

/-- C7 witness: `bobU` drops enrolled course 1 with a success message,
and dropping the unresolvable course id 99 reports course-not-found. -/
theorem studentDashboardPost_drop_spec_witness :
    (studentDashboardPost baseState (some bobU) ⟨some "drop", some "1"⟩).msgs
      = [⟨.success, "Successfully dropped Math"⟩]
    ∧ (studentDashboardPost baseState (some bobU) ⟨some "drop", some "99"⟩).msgs
      = [⟨.error, "Course not found"⟩] := by
  constructor
  · have h := (studentDashboardPost_drop_spec.1 baseState bobU ⟨some "drop", some "1"⟩
      mathC rfl rfl (by decide)).2.1
    exact h.trans (by decide)
  · exact (studentDashboardPost_drop_spec.2 baseState bobU ⟨some "drop", some "99"⟩
      rfl (by decide)).1

/-- C10: a student POST whose action is neither `enroll` nor `drop`
but whose course_id resolves changes no enrollment, no course and no
user, adds no message, and silently redirects back to the student
dashboard. -/
theorem studentDashboardPost_unknown_action (s : State) (u : User) (f : StudentForm)
    (course : Course) (hrole : u.role = "Student")
    (h1 : f.action ≠ some "enroll") (h2 : f.action ≠ some "drop")
    (hget : getCourse s f.course_id = some course) :
    (∀ uid, enrolledCourses (studentDashboardPost s (some u) f).state uid
        = enrolledCourses s uid)
    ∧ (studentDashboardPost s (some u) f).state.courses = s.courses
    ∧ (studentDashboardPost s (some u) f).state.users = s.users
    ∧ (studentDashboardPost s (some u) f).response = .redirect "student-dashboard"
    ∧ (studentDashboardPost s (some u) f).msgs = [] := by
  have hrb : (u.role != "Student") = false := by simp [hrole]
  have hb1 : (f.action == some "enroll") = false := beq_eq_false_iff_ne.mpr h1
  have hb2 : (f.action == some "drop") = false := beq_eq_false_iff_ne.mpr h2
  have hget' : getCourse (ensureProfile s u.id) f.course_id = some course := by
    rw [getCourse_ensureProfile]
    exact hget
  have hstate : (studentDashboardPost s (some u) f).state = ensureProfile s u.id := by
    simp [studentDashboardPost, hrb, hb1, hb2, hget']
  refine ⟨?_, ?_, ?_, ?_, ?_⟩
  · intro uid
    rw [hstate, enrolledCourses_ensureProfile]
  · rw [hstate, ensureProfile_courses]
  · rw [hstate, ensureProfile_users]
  · simp [studentDashboardPost, hrb, hb1, hb2, hget']
  · simp [studentDashboardPost, hrb, hb1, hb2, hget']

/-- C10 witness: action `view` on resolvable course 1 leaves `bobU`'s
enrollments untouched, adds no message, and redirects back. -/
theorem studentDashboardPost_unknown_action_witness :
    enrolledCourses (studentDashboardPost baseState (some bobU)
        ⟨some "view", some "1"⟩).state bobU.id = enrolledCourses baseState bobU.id
    ∧ (studentDashboardPost baseState (some bobU) ⟨some "view", some "1"⟩).msgs = [] := by
  have h := studentDashboardPost_unknown_action baseState bobU ⟨some "view", some "1"⟩
    mathC rfl (by decide) (by decide) (by decide)
  exact ⟨h.1 bobU.id, h.2.2.2.2⟩

/-- C2 counterexample: a faculty `update` POST whose submitted
course_id is the empty string — which resolves to no course — skips
the update branch entirely (`elif action == 'update' and course_id:`),
so it does NOT fail with the course-not-found message; it silently
redirects with no message (the store is still unchanged). -/
theorem facultyDashboardPost_empty_course_id_cex :
    getCourse baseState (some "") = none
    ∧ (facultyDashboardPost baseState (some deanU)
        ⟨some "update", some "", some "X", none, none⟩).msgs = []
    ∧ ¬ ((⟨.error, "Course not found"⟩ : Message) ∈
        (facultyDashboardPost baseState (some deanU)
          ⟨some "update", some "", some "X", none, none⟩).msgs)
    ∧ (facultyDashboardPost baseState (some deanU)
        ⟨some "update", some "", some "X", none, none⟩).state = baseState := by
  decide

/-- C2 (amended): for every faculty requester and every truthy
(present, nonempty) course_id, an `update` or `delete` POST whose
ownership-scoped lookup finds nothing — the course does not exist or
belongs to another instructor — fails with the course-not-found
message and leaves the store unchanged; and a course owned by a
different instructor always survives such a POST unmodified. -/
theorem facultyDashboardPost_scope :
    (∀ (s : State) (u : User) (f : FacultyForm),
        u.role = "Faculty" →
        (f.action = some "update" ∨ f.action = some "delete") →
        truthy f.course_id = true →
        getCourseOwned s (f.course_id.getD "") u.id = none →
        facultyDashboardPost s (some u) f
          = ⟨s, .redirect "faculty-dashboard", [⟨.error, "Course not found"⟩]⟩)
  ∧ (∀ (s : State) (u : User) (f : FacultyForm) (c : Course),
        u.role = "Faculty" →
        (f.action = some "update" ∨ f.action = some "delete") →
        (s.courses.map Course.id).Nodup →
        c ∈ s.courses → c.instructor ≠ u.id →
        c ∈ (facultyDashboardPost s (some u) f).state.courses) := by
  constructor
  · intro s u f hrole haction hcid hnone
    have hrb : (u.role != "Faculty") = false := by simp [hrole]
    rcases haction with haction | haction
    · have hbc : (f.action == some "create") = false := by simp [haction]
      have hbd : (f.action == some "delete") = false := by simp [haction]
      simp [facultyDashboardPost, hrb, hbc, hbd, haction, hcid, hnone]
    · have hbc : (f.action == some "create") = false := by simp [haction]
      simp [facultyDashboardPost, hrb, hbc, haction, hcid, hnone]
  · intro s u f c hrole haction hnodup hc hinstr
    have hrb : (u.role != "Faculty") = false := by simp [hrole]
    have hself : ∀ course : Course,
        getCourseOwned s (f.course_id.getD "") u.id = some course →
        c.id ≠ course.id := by
      intro course hfound hid
      have hcm : course ∈ s.courses := List.mem_of_find?_eq_some hfound
      have hpred := List.find?_some hfound
      have hown : course.instructor = u.id := by
        have := (Bool.and_eq_true _ _).mp hpred
        simpa using this.2
      have : c = course := List.inj_on_of_nodup_map hnodup hc hcm hid
      exact hinstr (this ▸ hown)
    rcases haction with haction | haction
    · have hbc : (f.action == some "create") = false := by simp [haction]
      have hbd : (f.action == some "delete") = false := by simp [haction]
      by_cases hcid : truthy f.course_id = true
      · cases hfound : getCourseOwned s (f.course_id.getD "") u.id with
        | none =>
          simp [facultyDashboardPost, hrb, hbc, hbd, haction, hcid, hfound]
          exact hc
        | some course =>
          have hne := hself course hfound
          have hstate : (facultyDashboardPost s (some u) f).state.courses
              = s.courses.map
                  (fun x => if x.id == course.id then applyUpdate course f else x) := by
            simp [facultyDashboardPost, hrb, hbc, hbd, haction, hcid, hfound]
          rw [hstate]
          refine List.mem_map.mpr ⟨c, hc, ?_⟩
          simp [hne]
      · have hcidf : truthy f.course_id = false := by
          cases h : truthy f.course_id
          · rfl
          · exact absurd h hcid
        simp [facultyDashboardPost, hrb, hbc, hbd, haction, hcidf]
        exact hc
    · have hbc : (f.action == some "create") = false := by simp [haction]
      by_cases hcid : truthy f.course_id = true
      · cases hfound : getCourseOwned s (f.course_id.getD "") u.id with
        | none =>
          simp [facultyDashboardPost, hrb, hbc, haction, hcid, hfound]
          exact hc
        | some course =>
          have hne := hself course hfound
          have hstate : (facultyDashboardPost s (some u) f).state.courses
              = s.courses.filter (fun x => x.id != course.id) := by
            simp [facultyDashboardPost, hrb, hbc, haction, hcid, hfound]
          rw [hstate]
          refine List.mem_filter.mpr ⟨hc, ?_⟩
          simpa using hne
      · have hcidf : truthy f.course_id = false := by
          cases h : truthy f.course_id
          · rfl
          · exact absurd h hcid
        simp [facultyDashboardPost, hrb, hbc, haction, hcidf]
        exact hc

/-- C2 witness: `deanU` updating course 1, which is owned by `profU`,
fails with the course-not-found message and changes nothing. -/
theorem facultyDashboardPost_scope_witness :
    facultyDashboardPost baseState (some deanU) ⟨some "update", some "1", some "X", none, none⟩
      = ⟨baseState, .redirect "faculty-dashboard", [⟨.error, "Course not found"⟩]⟩ :=
  facultyDashboardPost_scope.1 baseState deanU
    ⟨some "update", some "1", some "X", none, none⟩
    (by decide) (Or.inl rfl) (by decide) (by decide)

/-- C8: a successful faculty `update` rewrites in place only the found
course, via `applyUpdate`, which can change nothing but name, code and
credits: the updated row keeps its id and its instructor, that
instructor is the requester, and users and student profiles are
untouched. -/
theorem facultyUpdate_instructor_immutable (s : State) (u : User) (f : FacultyForm)
    (course : Course) (hrole : u.role = "Faculty") (haction : f.action = some "update")
    (hcid : truthy f.course_id = true)
    (hfound : getCourseOwned s (f.course_id.getD "") u.id = some course) :
    (facultyDashboardPost s (some u) f).state.courses
      = s.courses.map (fun c => if c.id == course.id then applyUpdate course f else c)
    ∧ (applyUpdate course f).instructor = course.instructor
    ∧ (applyUpdate course f).id = course.id
    ∧ course.instructor = u.id
    ∧ (facultyDashboardPost s (some u) f).state.users = s.users
    ∧ (facultyDashboardPost s (some u) f).state.students = s.students := by
  have hrb : (u.role != "Faculty") = false := by simp [hrole]
  have hbc : (f.action == some "create") = false := by simp [haction]
  have hbd : (f.action == some "delete") = false := by simp [haction]
  have hown : course.instructor = u.id := by
    have hpred := List.find?_some hfound
    have := (Bool.and_eq_true _ _).mp hpred
    simpa using this.2
  refine ⟨?_, rfl, rfl, hown, ?_, ?_⟩ <;>
    simp [facultyDashboardPost, hrb, hbc, hbd, haction, hcid, hfound]

/-- C8 witness: `profU` renames course 1; only that row changes and it
keeps instructor 3. -/
theorem facultyUpdate_instructor_immutable_witness :
    (facultyDashboardPost baseState (some profU)
        ⟨some "update", some "1", some "NewName", none, none⟩).state.courses
      = [⟨1, "NewName", "MATH1", "3", 3⟩, physC, chemC] := by
  have h := facultyUpdate_instructor_immutable baseState profU
    ⟨some "update", some "1", some "NewName", none, none⟩ mathC
    rfl rfl (by decide) (by decide)
  rw [h.1]
  decide

/-- C9: in a successful faculty `update`, each of the name, code and
credits fields keeps its stored value exactly when it is absent from
the form, and takes the submitted value exactly when it is present
(`request.POST.get(field, current)`). -/
theorem facultyUpdate_partial_fields (s : State) (u : User) (f : FacultyForm)
    (course : Course) (hrole : u.role = "Faculty") (haction : f.action = some "update")
    (hcid : truthy f.course_id = true)
    (hfound : getCourseOwned s (f.course_id.getD "") u.id = some course) :
    (facultyDashboardPost s (some u) f).state.courses
      = s.courses.map (fun c => if c.id == course.id then applyUpdate course f else c)
    ∧ (f.name = none → (applyUpdate course f).course_name = course.course_name)
    ∧ (∀ v, f.name = some v → (applyUpdate course f).course_name = v)
    ∧ (f.code = none → (applyUpdate course f).course_code = course.course_code)
    ∧ (∀ v, f.code = some v → (applyUpdate course f).course_code = v)
    ∧ (f.credits = none → (applyUpdate course f).credits = course.credits)
    ∧ (∀ v, f.credits = some v → (applyUpdate course f).credits = v) := by
  have hrb : (u.role != "Faculty") = false := by simp [hrole]
  have hbc : (f.action == some "create") = false := by simp [haction]
  have hbd : (f.action == some "delete") = false := by simp [haction]
  refine ⟨by simp [facultyDashboardPost, hrb, hbc, hbd, haction, hcid, hfound],
    ?_, ?_, ?_, ?_, ?_, ?_⟩ <;>
  · intros
    simp [applyUpdate, *]

/-- C9 witness: updating course 1 with only a new name submitted keeps
the stored code and credits and overwrites the name. -/
theorem facultyUpdate_partial_fields_witness :
    (applyUpdate mathC ⟨some "update", some "1", some "NewName", none, none⟩).course_name
        = "NewName"
    ∧ (applyUpdate mathC ⟨some "update", some "1", some "NewName", none, none⟩).course_code
        = mathC.course_code
    ∧ (applyUpdate mathC ⟨some "update", some "1", some "NewName", none, none⟩).credits
        = mathC.credits := by
  have h := facultyUpdate_partial_fields baseState profU
    ⟨some "update", some "1", some "NewName", none, none⟩ mathC
    rfl rfl (by decide) (by decide)
  exact ⟨h.2.2.1 "NewName" rfl, h.2.2.2.1 rfl, h.2.2.2.2.2.1 rfl⟩

end CourseMgmt
